import Mathlib

/-!
# Verification of the reservation handler (supabase/functions/handle-reservation/index.ts)

Shallow embedding of the serverless reservation handler and its helpers.
The JavaScript runtime values are modelled as follows:

* a JSON payload field that may be absent is an `Option String`
  (`none` = the property is `undefined`);
* JavaScript string falsiness (`!x` true for `undefined` and `""`) is `jsFalsy`;
* dates are modelled at calendar-day granularity: an abstract parser
  `parseDate : String → Option Int` stands for `new Date(string)` (`none` =
  Invalid Date, whose comparisons are all false), and `today : Int` stands for
  the current day obtained from `new Date()` with the time-of-day zeroed by
  `setHours(0,0,0,0)`;
* a thrown `Error` is its message string; an async operation that can behave
  differently on each invocation is a function `Nat → Except String α` from
  the invocation index to its outcome;
* `Response` bodies are either raw text (`new Response('ok', ...)`) or the
  JSON object literal passed to `createResponse`, kept as an association list
  of field names and primitive values.
-/

set_option autoImplicit false

namespace HandleReservation

/-- Primitive JSON values appearing in the handler's response object literals. -/
inductive JVal where
  | s (v : String)
  | b (v : Bool)
  | n (v : Nat)
  | null
  deriving DecidableEq, Repr

/-- Body of an HTTP `Response`: raw text, or a JSON object literal. -/
inductive RespBody where
  | raw (s : String)
  | obj (fields : List (String × JVal))
  deriving DecidableEq, Repr

/-- An HTTP response as built by the handler. -/
structure Response where
  status : Nat
  body : RespBody
  headers : List (String × String)
  deriving DecidableEq, Repr

/-- The `corsHeaders` constant of the source. -/
def corsHeaders : List (String × String) :=
  [("Access-Control-Allow-Origin", "*"),
   ("Access-Control-Allow-Methods", "POST, OPTIONS"),
   ("Access-Control-Allow-Headers", "Content-Type, Authorization")]

/-- `createResponse(body, status)`: JSON body with `Content-Type` plus the
CORS headers. -/
def createResponse (body : List (String × JVal)) (status : Nat) : Response :=
  { status := status
    body := RespBody.obj body
    headers := ("Content-Type", "application/json") :: corsHeaders }

/-- The `MAX_RETRIES` constant. -/
def MAX_RETRIES : Nat := 3

/-- The `RETRY_DELAY` constant (milliseconds). -/
def RETRY_DELAY : Nat := 500

/-- The parsed JSON request body, shaped like the `ReservationData` interface.
Every property of a parsed JSON object may be absent at runtime, so each field
is an `Option String` (`reservationType` included: the TypeScript union type
does not constrain the runtime value). -/
structure ReservationData where
  name : Option String
  email : Option String
  date : Option String
  time : Option String
  guests : Option String
  message : Option String
  reservationType : Option String
  eventType : Option String
  attendees : Option String
  eventDescription : Option String
  deriving DecidableEq, Repr

/-- JavaScript falsiness of an optional string: `!x` is true exactly for
`undefined` and the empty string. -/
def jsFalsy : Option String → Bool
  | none => true
  | some s => s = ""

/-- Character class `[^\s@]` of the email regex. -/
def emailAtomChar (c : Char) : Bool :=
  !(c.isWhitespace || c == '@')

/-- The test of the anchored regex `/^[^\s@]+@[^\s@]+\.[^\s@]+$/`.
A string matches iff it decomposes as `a ++ "@" ++ b ++ "." ++ c` with
`a`, `b`, `c` nonempty and free of whitespace and `@` (so the string has
exactly one `@`; `b` and `c` may contain further dots).  Implemented by
locating the unique `@` and asking for an interior dot after it. -/
def emailRegexTest (s : String) : Bool :=
  let cs := s.data
  match cs.findIdx? (· == '@') with
  | none => false
  | some i =>
    let a := cs.take i
    let rest := cs.drop (i + 1)
    a ≠ [] && a.all emailAtomChar && rest.all emailAtomChar &&
      ((rest.drop 1).dropLast.contains '.')

/-- The condition of the first check of `validateReservationData`:
`!data.name || !data.email || !data.date || !data.time || !data.guests ||
!data.reservationType`. -/
def missingRequired (data : ReservationData) : Bool :=
  jsFalsy data.name || jsFalsy data.email || jsFalsy data.date ||
    jsFalsy data.time || jsFalsy data.guests || jsFalsy data.reservationType

/-- `validateReservationData`.  Returns `none` when the data is valid and
`some message` for the first violation, mirroring the source's
`{ valid: boolean; message?: string }`.  `parseDate` and `today` model the
`Date` environment (see the module docstring); an unparseable date makes the
`reservationDate < today` comparison false, hence no rejection. -/
def validateReservationData (parseDate : String → Option Int) (today : Int)
    (data : ReservationData) : Option String :=
  if missingRequired data then
    some "Missing required fields. Please fill all required information."
  else if !emailRegexTest (data.email.getD "") then
    some "Invalid email format."
  else
    match parseDate (data.date.getD "") with
    | some reservationDate =>
      if reservationDate < today then
        some "Reservation date cannot be in the past."
      else
        none
    | none => none

/-- Outcome of running `retryOperation`: the value returned or the error
thrown, together with how many times the operation was invoked and the list
of wait durations performed (in order). -/
structure RetryTrace (α : Type) where
  result : Except String α
  calls : Nat
  waits : List Nat
  deriving Repr

/-- The loop body of `retryOperation`.  The source iterates
`for (attempt = 0; attempt < maxRetries; attempt++)`; here the remaining
iteration count `remaining = maxRetries - attempt` drives the recursion
(structurally), while `attempt`, the captured `lastError` and the
instrumentation (`calls`, `waits`) are carried along.  Falling out of the
loop throws `lastError`, or the generic message when none was captured. -/
def retryLoop {α : Type} (op : Nat → Except String α) (maxRetries delay : Nat) :
    Nat → Nat → Option String → Nat → List Nat → RetryTrace α
  | 0, _, lastError, calls, waits =>
    ⟨Except.error (lastError.getD "Operation failed after maximum retries"), calls, waits⟩
  | remaining + 1, attempt, _, calls, waits =>
    match op attempt with
    | Except.ok v => ⟨Except.ok v, calls + 1, waits⟩
    | Except.error e =>
      let waits' := if attempt < maxRetries - 1 then waits ++ [delay * (attempt + 1)] else waits
      retryLoop op maxRetries delay remaining (attempt + 1) (some e) (calls + 1) waits'

/-- `retryOperation(operation, maxRetries, delay)`: run the operation up to
`maxRetries` times, waiting `delay * (attempt + 1)` after each failed attempt
other than the last, and rethrow the last error on exhaustion (or the generic
message when no error was captured, i.e. when `maxRetries = 0`). -/
def retryOperation {α : Type} (op : Nat → Except String α)
    (maxRetries : Nat := MAX_RETRIES) (delay : Nat := RETRY_DELAY) : RetryTrace α :=
  retryLoop op maxRetries delay maxRetries 0 none 0 []

/-- JavaScript template-literal interpolation of a possibly-absent string:
`undefined` prints as the text `"undefined"`. -/
def jsInterp : Option String → String
  | none => "undefined"
  | some s => s

/-- JavaScript `x || 'N/A'`: the fallback replaces falsy values. -/
def jsOrNA (x : Option String) : String :=
  if jsFalsy x then "N/A" else jsInterp x

/-- The base email template assigned to `emailContent` (before the optional
event block). -/
def baseEmailContent (d : ReservationData) : String :=
  "\n      <h1>Nueva Reserva</h1>\n      <p><strong>Nombre:</strong> " ++
    jsInterp d.name ++
  "</p>\n      <p><strong>Correo:</strong> " ++ jsInterp d.email ++
  "</p>\n      <p><strong>Fecha:</strong> " ++ jsInterp d.date ++
  "</p>\n      <p><strong>Hora:</strong> " ++ jsInterp d.time ++
  "</p>\n      <p><strong>Invitados:</strong> " ++ jsInterp d.guests ++
  "</p>\n      <p><strong>Mensaje:</strong> " ++ jsOrNA d.message ++
  "</p>\n    "

/-- The block appended to `emailContent` when `reservationType === 'event'`. -/
def eventBlock (d : ReservationData) : String :=
  "\n        <h2>Detalles del Evento</h2>\n        <p><strong>Tipo de Evento:</strong> " ++
    jsInterp d.eventType ++
  "</p>\n        <p><strong>Cantidad de Asistentes:</strong> " ++ jsInterp d.attendees ++
  "</p>\n        <p><strong>Descripción del Evento:</strong> " ++ jsOrNA d.eventDescription ++
  "</p>\n      "

/-- The final value of `emailContent`: the base template, with the event
details appended exactly when `reservationType === 'event'`. -/
def emailContent (d : ReservationData) : String :=
  if d.reservationType = some "event" then
    baseEmailContent d ++ eventBlock d
  else
    baseEmailContent d

/-- A row returned by the storage insert-and-select; `id` is the
storage-assigned identifier. -/
structure Row where
  id : Nat
  deriving DecidableEq, Repr

/-- The provider's HTTP response to the email `fetch`: its `ok` flag and the
body text read on failure. -/
structure EmailResponse where
  ok : Bool
  text : String
  deriving DecidableEq, Repr

/-- The environment the handler runs against: the date environment and the
per-invocation behaviour of the two external collaborators. -/
structure Ctx where
  parseDate : String → Option Int
  today : Int
  insertAttempt : Nat → Except String (List Row)
  emailAttempt : Nat → EmailResponse

/-- The closure passed to `retryOperation` for the email send: a non-ok
provider response is thrown as an error carrying the response text. -/
def emailOp (ctx : Ctx) : Nat → Except String Unit := fun i =>
  if (ctx.emailAttempt i).ok then
    Except.ok ()
  else
    Except.error ("Email sending failed: " ++ (ctx.emailAttempt i).text)

/-- An incoming HTTP request: its method and the JSON-parse result of its
body (`none` = `req.json()` threw). -/
structure Request where
  method : String
  body : Option ReservationData
  deriving Repr

/-- Observable side effects of one handler run: how many times the storage
insert and the email send were invoked, and the HTML body handed to the email
step when that step was reached. -/
structure HandlerTrace where
  storageCalls : Nat
  emailCalls : Nat
  emailHtml : Option String
  deriving DecidableEq, Repr

/-- The trace of a run that performed no external call. -/
def noCalls : HandlerTrace := ⟨0, 0, none⟩

/-- `dbResult?.[0]?.id || null`: the first returned row's id, with JavaScript
falsiness (`0` is falsy, so it also becomes `null`). -/
def jsIdOrNull (rows : List Row) : JVal :=
  match rows with
  | [] => JVal.null
  | r :: _ => if r.id = 0 then JVal.null else JVal.n r.id

/-- The request handler passed to `serve`, as a function from the environment
and the request to the response and the side-effect trace.  Follows the
source pipeline: OPTIONS gate, method gate, body parse, validation, storage
insert under `retryOperation`, best-effort email send under `retryOperation`,
success response. -/
def handleRequest (ctx : Ctx) (req : Request) : Response × HandlerTrace :=
  if req.method = "OPTIONS" then
    ({ status := 200, body := RespBody.raw "ok", headers := corsHeaders }, noCalls)
  else if req.method ≠ "POST" then
    (createResponse [("error", JVal.s "Method not allowed")] 405, noCalls)
  else
    match req.body with
    | none =>
      (createResponse [("error", JVal.s "Invalid request format"),
        ("details", JVal.s "Could not parse JSON body")] 400, noCalls)
    | some d =>
      match validateReservationData ctx.parseDate ctx.today d with
      | some msg =>
        (createResponse [("error", JVal.s "Validation error"),
          ("message", JVal.s msg)] 400, noCalls)
      | none =>
        let dbTrace := retryOperation ctx.insertAttempt
        match dbTrace.result with
        | Except.error e =>
          (createResponse [("error", JVal.s "Database error"),
            ("message",
             JVal.s "We could not save your reservation. Please try again later or contact us directly."),
            ("details", JVal.s e)] 500,
           ⟨dbTrace.calls, 0, none⟩)
        | Except.ok rows =>
          let emailTrace := retryOperation (emailOp ctx)
          let emailSuccess := match emailTrace.result with
            | Except.ok _ => true
            | Except.error _ => false
          (createResponse [("success", JVal.b true),
            ("message", JVal.s "Reservation submitted successfully"),
            ("emailSent", JVal.b emailSuccess),
            ("reservationId", jsIdOrNull rows),
            ("emailNote",
             if emailSuccess then JVal.null
             else JVal.s "Confirmation email could not be sent, but your reservation has been registered.")] 200,
           ⟨dbTrace.calls, emailTrace.calls, some (emailContent d)⟩)

/-! ## Concrete environments and payloads used by the witnesses -/

/-- A concrete date parser: knows two calendar days, is undefined elsewhere. -/
def parseDateW : String → Option Int := fun s =>
  if s = "2026-10-12" then some 12 else if s = "2026-10-10" then some 10 else none

/-- A storage stub whose insert always succeeds with one row of id 42. -/
def insertOkW : Nat → Except String (List Row) := fun _ => Except.ok [⟨42⟩]

/-- An email stub whose send always succeeds. -/
def emailOkW : Nat → EmailResponse := fun _ => ⟨true, ""⟩

/-- A concrete environment: today is day 12, storage and email succeed. -/
def ctxW : Ctx := ⟨parseDateW, 12, insertOkW, emailOkW⟩

/-- A fully valid table reservation payload. -/
def dGoodW : ReservationData :=
  ⟨some "Ana", some "ana@example.com", some "2026-10-12", some "19:00",
   some "4", none, some "table", none, none, none⟩

/-! ## Helper lemmas -/

/-- Unrolling of a 3-attempt `retryOperation` run in terms of the outcomes of
the first three invocations of the operation. -/
theorem retryOperation_three {α : Type} (op : Nat → Except String α) (delay : Nat) :
    retryOperation op 3 delay =
      match op 0, op 1, op 2 with
      | Except.ok v, _, _ => ⟨Except.ok v, 1, []⟩
      | Except.error _, Except.ok v, _ => ⟨Except.ok v, 2, [delay * 1]⟩
      | Except.error _, Except.error _, Except.ok v =>
          ⟨Except.ok v, 3, [delay * 1, delay * 2]⟩
      | Except.error _, Except.error _, Except.error e =>
          ⟨Except.error e, 3, [delay * 1, delay * 2]⟩ := by
  rcases h0 : op 0 with e0 | v0 <;> rcases h1 : op 1 with e1 | v1 <;>
    rcases h2 : op 2 with e2 | v2 <;>
    simp [retryOperation, retryLoop, h0, h1, h2]

/-- A 3-attempt `retryOperation` run invokes the operation at least once. -/
theorem retryOperation_calls_pos {α : Type} (op : Nat → Except String α) (delay : Nat) :
    0 < (retryOperation op 3 delay).calls := by
  rw [retryOperation_three]
  rcases op 0 with e0 | v0 <;> rcases op 1 with e1 | v1 <;>
    rcases op 2 with e2 | v2 <;> simp

/-- Validation outcome once the required fields are present, the email is
well formed and the date parses: only the past-date comparison remains. -/
theorem validateReservationData_eq (p : String → Option Int) (today t : Int)
    (d : ReservationData) (h1 : missingRequired d = false)
    (h2 : emailRegexTest (d.email.getD "") = true)
    (h3 : p (d.date.getD "") = some t) :
    validateReservationData p today d =
      if t < today then some "Reservation date cannot be in the past." else none := by
  simp [validateReservationData, h1, h2, h3]

/-- String containment, via infixes of the underlying character lists. -/
def strContains (s sub : String) : Prop := sub.data <:+: s.data

theorem strContains_append_left {a t : String} (b : String) (h : strContains a t) :
    strContains (a ++ b) t := by
  unfold strContains at h ⊢
  rw [String.data_append]
  exact h.trans (List.infix_append [] a.data b.data)

theorem strContains_append_right {b t : String} (a : String) (h : strContains b t) :
    strContains (a ++ b) t := by
  unfold strContains at h ⊢
  rw [String.data_append]
  have : b.data <:+: a.data ++ b.data := by
    have := List.infix_append a.data b.data ([] : List Char)
    simpa using this
  exact h.trans this

theorem strContains_self (s : String) : strContains s s := List.infix_refl s.data

/-! ## Claims -/

/-- C1: with a 3-attempt configuration, `retryOperation` invokes the
operation three times and performs two linear waits (`delay * 1`, then
`delay * 2`) both when the operation fails twice and then succeeds (returning
the third invocation's value) and when it fails every time (throwing the
failure observed on the last invocation). -/
theorem retryOperation_linear_backoff_c1 {α : Type} (delay : Nat) :
    (∀ (op : Nat → Except String α) (e₀ e₁ : String) (v : α),
        op 0 = Except.error e₀ → op 1 = Except.error e₁ → op 2 = Except.ok v →
        retryOperation op 3 delay =
          ⟨Except.ok v, 3, [delay * 1, delay * 2]⟩) ∧
    (∀ (op : Nat → Except String α) (err : Nat → String),
        (∀ i, i < 3 → op i = Except.error (err i)) →
        retryOperation op 3 delay =
          ⟨Except.error (err 2), 3, [delay * 1, delay * 2]⟩) := by
  constructor
  · intro op e₀ e₁ v h0 h1 h2
    rw [retryOperation_three]
    simp [h0, h1, h2]
  · intro op err h
    rw [retryOperation_three]
    simp [h 0 (by decide), h 1 (by decide), h 2 (by decide)]

/-- An operation that fails twice and then returns 7. -/
def opFailTwiceW : Nat → Except String Nat := fun i =>
  if i = 2 then Except.ok 7 else Except.error ("fail " ++ toString i)

/-- An operation that fails on every invocation. -/
def opAlwaysFailW : Nat → Except String Nat := fun i =>
  Except.error ("fail " ++ toString i)

/-- Witness for C1 at two concrete operations with base delay 10. -/
theorem retryOperation_linear_backoff_c1_witness :
    retryOperation opFailTwiceW 3 10 = ⟨Except.ok 7, 3, [10 * 1, 10 * 2]⟩ ∧
    retryOperation opAlwaysFailW 3 10 =
      ⟨Except.error ("fail " ++ toString 2), 3, [10 * 1, 10 * 2]⟩ :=
  ⟨(retryOperation_linear_backoff_c1 (α := Nat) 10).1 opFailTwiceW
      "fail 0" "fail 1" 7 rfl rfl rfl,
   (retryOperation_linear_backoff_c1 (α := Nat) 10).2 opAlwaysFailW
      (fun i => "fail " ++ toString i) (fun _ _ => rfl)⟩

/-- The response for a missing-required-field violation. -/
def missingFieldsResponse : Response :=
  createResponse [("error", JVal.s "Validation error"),
    ("message", JVal.s "Missing required fields. Please fill all required information.")] 400

/-- The response for an email-format violation. -/
def invalidEmailResponse : Response :=
  createResponse [("error", JVal.s "Validation error"),
    ("message", JVal.s "Invalid email format.")] 400

/-- The response for a past-date violation. -/
def pastDateResponse : Response :=
  createResponse [("error", JVal.s "Validation error"),
    ("message", JVal.s "Reservation date cannot be in the past.")] 400

/-- C2: for a POST payload with all required fields present and a well-formed
email whose date parses to day `t`, the handler answers with the 400 past-date
response exactly when `t` is strictly before the current calendar day, and a
payload dated the current calendar day passes validation. -/
theorem pastDate_iff_c2 (ctx : Ctx) (d : ReservationData) (t : Int)
    (h1 : missingRequired d = false) (h2 : emailRegexTest (d.email.getD "") = true)
    (h3 : ctx.parseDate (d.date.getD "") = some t) :
    ((handleRequest ctx ⟨"POST", some d⟩).1 = pastDateResponse ↔ t < ctx.today) ∧
    (t = ctx.today → validateReservationData ctx.parseDate ctx.today d = none) := by
  have hv := validateReservationData_eq ctx.parseDate ctx.today t d h1 h2 h3
  refine ⟨?_, ?_⟩
  · by_cases hlt : t < ctx.today
    · have hv' : validateReservationData ctx.parseDate ctx.today d =
          some "Reservation date cannot be in the past." := by rw [hv]; simp [hlt]
      simp [handleRequest, hv', hlt, pastDateResponse]
    · have hv' : validateReservationData ctx.parseDate ctx.today d = none := by
        rw [hv]; simp [hlt]
      simp only [hlt, iff_false]
      simp [handleRequest, hv']
      cases hr : (retryOperation ctx.insertAttempt).result <;>
        simp [hr, pastDateResponse, createResponse]
  · intro ht
    rw [hv]
    simp [ht]

/-- A payload with an empty (falsy) name. -/
def dMissingW : ReservationData := { dGoodW with name := some "" }

/-- A payload with a malformed email address. -/
def dBadEmailW : ReservationData := { dGoodW with email := some "not-an-email" }

/-- A payload dated two days before `ctxW`'s current day. -/
def dPastW : ReservationData := { dGoodW with date := some "2026-10-10" }

/-- Witness for C2: a payload dated day 10 against current day 12. -/
theorem pastDate_iff_c2_witness :
    ((handleRequest ctxW ⟨"POST", some dPastW⟩).1 = pastDateResponse ↔
        (10 : Int) < ctxW.today) ∧
    ((10 : Int) = ctxW.today →
        validateReservationData ctxW.parseDate ctxW.today dPastW = none) :=
  pastDate_iff_c2 ctxW dPastW 10 (by decide) (by decide) (by decide)

/-- C3: an invalid POST payload gets the 400 response of the first violation
in the precedence missing-required-field, then email format, then past date,
and triggers no storage and no email call. -/
theorem validation_precedence_c3 (ctx : Ctx) (d : ReservationData) :
    (missingRequired d = true →
      handleRequest ctx ⟨"POST", some d⟩ = (missingFieldsResponse, noCalls)) ∧
    (missingRequired d = false → emailRegexTest (d.email.getD "") = false →
      handleRequest ctx ⟨"POST", some d⟩ = (invalidEmailResponse, noCalls)) ∧
    (∀ t : Int, missingRequired d = false →
      emailRegexTest (d.email.getD "") = true →
      ctx.parseDate (d.date.getD "") = some t → t < ctx.today →
      handleRequest ctx ⟨"POST", some d⟩ = (pastDateResponse, noCalls)) := by
  refine ⟨?_, ?_, ?_⟩
  · intro h
    simp [handleRequest, validateReservationData, h, missingFieldsResponse]
  · intro h1 h2
    simp [handleRequest, validateReservationData, h1, h2, invalidEmailResponse]
  · intro t h1 h2 h3 h4
    have hv := validateReservationData_eq ctx.parseDate ctx.today t d h1 h2 h3
    have hv' : validateReservationData ctx.parseDate ctx.today d =
        some "Reservation date cannot be in the past." := by rw [hv]; simp [h4]
    simp [handleRequest, hv', pastDateResponse]

/-- Witness for C3: the three violations at concrete payloads. -/
theorem validation_precedence_c3_witness :
    handleRequest ctxW ⟨"POST", some dMissingW⟩ = (missingFieldsResponse, noCalls) ∧
    handleRequest ctxW ⟨"POST", some dBadEmailW⟩ = (invalidEmailResponse, noCalls) ∧
    handleRequest ctxW ⟨"POST", some dPastW⟩ = (pastDateResponse, noCalls) :=
  ⟨(validation_precedence_c3 ctxW dMissingW).1 (by decide),
   (validation_precedence_c3 ctxW dBadEmailW).2.1 (by decide) (by decide),
   (validation_precedence_c3 ctxW dPastW).2.2 10 (by decide) (by decide)
      (by decide) (by decide)⟩

/-- C10: a payload whose required fields are present and whose email is well
formed but whose date string does not parse passes validation, and the
handler proceeds to the storage insert. -/
theorem unparseable_date_passes_c10 (ctx : Ctx) (d : ReservationData)
    (h1 : missingRequired d = false) (h2 : emailRegexTest (d.email.getD "") = true)
    (h3 : ctx.parseDate (d.date.getD "") = none) :
    validateReservationData ctx.parseDate ctx.today d = none ∧
    0 < (handleRequest ctx ⟨"POST", some d⟩).2.storageCalls := by
  have hv : validateReservationData ctx.parseDate ctx.today d = none := by
    simp [validateReservationData, h1, h2, h3]
  refine ⟨hv, ?_⟩
  simp [handleRequest, hv]
  cases hr : (retryOperation ctx.insertAttempt).result <;> simp [hr] <;>
    exact retryOperation_calls_pos _ _

/-- A payload whose date string parses as no calendar date. -/
def dNoDateW : ReservationData := { dGoodW with date := some "not-a-date" }

/-- Witness for C10 at the date string "not-a-date". -/
theorem unparseable_date_passes_c10_witness :
    validateReservationData ctxW.parseDate ctxW.today dNoDateW = none ∧
    0 < (handleRequest ctxW ⟨"POST", some dNoDateW⟩).2.storageCalls :=
  unparseable_date_passes_c10 ctxW dNoDateW (by decide) (by decide) (by decide)

/-- C5: on a valid payload whose storage insert fails on all three attempts,
the handler answers 500 with error "Database error" and details equal to the
last storage failure's message, after three insert invocations and with no
email call. -/
theorem db_failure_response_c5 (ctx : Ctx) (d : ReservationData) (err : Nat → String)
    (hval : validateReservationData ctx.parseDate ctx.today d = none)
    (hdb : ∀ i, i < 3 → ctx.insertAttempt i = Except.error (err i)) :
    handleRequest ctx ⟨"POST", some d⟩ =
      (createResponse [("error", JVal.s "Database error"),
        ("message",
         JVal.s "We could not save your reservation. Please try again later or contact us directly."),
        ("details", JVal.s (err 2))] 500,
       ⟨3, 0, none⟩) := by
  have h3 : retryOperation ctx.insertAttempt =
      ⟨Except.error (err 2), 3, [RETRY_DELAY * 1, RETRY_DELAY * 2]⟩ := by
    show retryOperation ctx.insertAttempt 3 RETRY_DELAY = _
    rw [retryOperation_three]
    simp [hdb 0 (by decide), hdb 1 (by decide), hdb 2 (by decide)]
  simp [handleRequest, hval, h3]

/-- A storage stub that fails on every attempt. -/
def insertFailW : Nat → Except String (List Row) := fun i =>
  Except.error ("db " ++ toString i)

/-- The environment of `ctxW` with a failing storage insert. -/
def ctxDbFailW : Ctx := { ctxW with insertAttempt := insertFailW }

/-- Witness for C5 at a storage stub failing with messages db 0, db 1, db 2. -/
theorem db_failure_response_c5_witness :
    handleRequest ctxDbFailW ⟨"POST", some dGoodW⟩ =
      (createResponse [("error", JVal.s "Database error"),
        ("message",
         JVal.s "We could not save your reservation. Please try again later or contact us directly."),
        ("details", JVal.s ("db " ++ toString 2))] 500,
       ⟨3, 0, none⟩) :=
  db_failure_response_c5 ctxDbFailW dGoodW (fun i => "db " ++ toString i)
    (by decide) (fun _ _ => rfl)

/-- C6: on a valid payload whose storage insert succeeds but whose email send
fails on all three attempts, the handler still answers 200 with success true,
emailSent false and the non-null advisory emailNote. -/
theorem email_failure_still_success_c6 (ctx : Ctx) (d : ReservationData)
    (rows : List Row)
    (hval : validateReservationData ctx.parseDate ctx.today d = none)
    (hdb : (retryOperation ctx.insertAttempt).result = Except.ok rows)
    (hem : ∀ i, i < 3 → (ctx.emailAttempt i).ok = false) :
    (handleRequest ctx ⟨"POST", some d⟩).1 =
      createResponse [("success", JVal.b true),
        ("message", JVal.s "Reservation submitted successfully"),
        ("emailSent", JVal.b false),
        ("reservationId", jsIdOrNull rows),
        ("emailNote",
         JVal.s "Confirmation email could not be sent, but your reservation has been registered.")] 200 := by
  have he : ∀ i, i < 3 → emailOp ctx i =
      Except.error ("Email sending failed: " ++ (ctx.emailAttempt i).text) := by
    intro i hi
    simp [emailOp, hem i hi]
  have h3 : (retryOperation (emailOp ctx)).result =
      Except.error ("Email sending failed: " ++ (ctx.emailAttempt 2).text) := by
    show (retryOperation (emailOp ctx) 3 RETRY_DELAY).result = _
    rw [retryOperation_three]
    simp [he 0 (by decide), he 1 (by decide), he 2 (by decide)]
  simp [handleRequest, hval, hdb, h3]

/-- The environment of `ctxW` with a failing email provider. -/
def ctxEmailFailW : Ctx := { ctxW with emailAttempt := fun _ => ⟨false, "smtp down"⟩ }

/-- Witness for C6: storage succeeds with row id 42, email always fails. -/
theorem email_failure_still_success_c6_witness :
    (handleRequest ctxEmailFailW ⟨"POST", some dGoodW⟩).1 =
      createResponse [("success", JVal.b true),
        ("message", JVal.s "Reservation submitted successfully"),
        ("emailSent", JVal.b false),
        ("reservationId", jsIdOrNull [⟨42⟩]),
        ("emailNote",
         JVal.s "Confirmation email could not be sent, but your reservation has been registered.")] 200 :=
  email_failure_still_success_c6 ctxEmailFailW dGoodW [⟨42⟩]
    (by decide) rfl (fun _ _ => rfl)

/-- C7: on a valid payload where both the storage insert and the email send
succeed, the handler answers 200 with success true, emailSent true, a null
emailNote, and reservationId equal to the storage-assigned id of the first
inserted row (assumed nonzero, i.e. truthy). -/
theorem full_success_response_c7 (ctx : Ctx) (d : ReservationData) (r : Row)
    (rest : List Row)
    (hval : validateReservationData ctx.parseDate ctx.today d = none)
    (hdb : (retryOperation ctx.insertAttempt).result = Except.ok (r :: rest))
    (hid : r.id ≠ 0)
    (hem : (retryOperation (emailOp ctx)).result = Except.ok ()) :
    (handleRequest ctx ⟨"POST", some d⟩).1 =
      createResponse [("success", JVal.b true),
        ("message", JVal.s "Reservation submitted successfully"),
        ("emailSent", JVal.b true),
        ("reservationId", JVal.n r.id),
        ("emailNote", JVal.null)] 200 := by
  simp [handleRequest, hval, hdb, hem, jsIdOrNull, hid]

/-- Witness for C7: everything succeeds, the inserted row has id 42. -/
theorem full_success_response_c7_witness :
    (handleRequest ctxW ⟨"POST", some dGoodW⟩).1 =
      createResponse [("success", JVal.b true),
        ("message", JVal.s "Reservation submitted successfully"),
        ("emailSent", JVal.b true),
        ("reservationId", JVal.n 42),
        ("emailNote", JVal.null)] 200 :=
  full_success_response_c7 ctxW dGoodW ⟨42⟩ []
    (by decide) rfl (by decide) rfl

/-- An event-type payload in which eventType, attendees and eventDescription
are all absent. -/
def dEventMissingW : ReservationData := { dGoodW with reservationType := some "event" }

/-- Counterexample for C4: an event payload missing all three event-specific
fields passes validation and is persisted (status 200, one storage call). -/
theorem event_fields_not_validated_cex_c4 :
    validateReservationData ctxW.parseDate ctxW.today dEventMissingW = none ∧
    (handleRequest ctxW ⟨"POST", some dEventMissingW⟩).1.status = 200 ∧
    0 < (handleRequest ctxW ⟨"POST", some dEventMissingW⟩).2.storageCalls := by
  decide

/-- C4 (amended): `validateReservationData` never inspects eventType,
attendees or eventDescription; its outcome is invariant under replacing
them, for event payloads included. -/
theorem validate_ignores_event_fields_c4 (p : String → Option Int) (today : Int)
    (d : ReservationData) (x y z : Option String) :
    validateReservationData p today
        { d with eventType := x, attendees := y, eventDescription := z } =
      validateReservationData p today d := rfl

instance (s sub : String) : Decidable (strContains s sub) :=
  List.decidableInfix sub.data s.data

/-- C8: an event-type payload's email body contains the event block with the
event-type, attendee-count and event-description fields; a table-type
payload's email body is exactly the base template, with the event block
omitted. -/
theorem email_event_block_c8 (d : ReservationData) :
    (d.reservationType = some "event" →
      strContains (emailContent d) "Tipo de Evento" ∧
      strContains (emailContent d) (jsInterp d.eventType) ∧
      strContains (emailContent d) "Cantidad de Asistentes" ∧
      strContains (emailContent d) (jsInterp d.attendees) ∧
      strContains (emailContent d) "Descripción del Evento" ∧
      strContains (emailContent d) (jsOrNA d.eventDescription)) ∧
    (d.reservationType = some "table" → emailContent d = baseEmailContent d) := by
  constructor
  · intro h
    have he : emailContent d = baseEmailContent d ++ eventBlock d := by
      simp [emailContent, h]
    rw [he]
    refine ⟨?_, ?_, ?_, ?_, ?_, ?_⟩ <;> refine strContains_append_right _ ?_ <;>
      unfold eventBlock
    · exact strContains_append_left _ (strContains_append_left _
        (strContains_append_left _ (strContains_append_left _
          (strContains_append_left _ (strContains_append_left _ (by decide))))))
    · exact strContains_append_left _ (strContains_append_left _
        (strContains_append_left _ (strContains_append_left _
          (strContains_append_left _
            (strContains_append_right _ (strContains_self _))))))
    · exact strContains_append_left _ (strContains_append_left _
        (strContains_append_left _ (strContains_append_left _
          (strContains_append_right _ (by decide)))))
    · exact strContains_append_left _ (strContains_append_left _
        (strContains_append_left _ (strContains_append_right _ (strContains_self _))))
    · exact strContains_append_left _ (strContains_append_left _
        (strContains_append_right _ (by decide)))
    · exact strContains_append_left _ (strContains_append_right _ (strContains_self _))
  · intro h
    simp [emailContent, h]

/-- A fully populated event-type payload. -/
def dEventFullW : ReservationData :=
  { dGoodW with
    reservationType := some "event"
    eventType := some "Cumpleaños"
    attendees := some "25"
    eventDescription := some "Fiesta privada" }

/-- Witness for C8: a populated event payload and a table payload. -/
theorem email_event_block_c8_witness :
    (strContains (emailContent dEventFullW) "Tipo de Evento" ∧
      strContains (emailContent dEventFullW) (jsInterp dEventFullW.eventType) ∧
      strContains (emailContent dEventFullW) "Cantidad de Asistentes" ∧
      strContains (emailContent dEventFullW) (jsInterp dEventFullW.attendees) ∧
      strContains (emailContent dEventFullW) "Descripción del Evento" ∧
      strContains (emailContent dEventFullW) (jsOrNA dEventFullW.eventDescription)) ∧
    emailContent dGoodW = baseEmailContent dGoodW :=
  ⟨(email_event_block_c8 dEventFullW).1 rfl, (email_event_block_c8 dGoodW).2 rfl⟩

/-- Counterexample for C9: an OPTIONS request's response body is the text
"ok", not the empty body. -/
theorem options_body_not_empty_cex_c9 :
    (handleRequest ctxW ⟨"OPTIONS", some dGoodW⟩).1.body = RespBody.raw "ok" ∧
    (handleRequest ctxW ⟨"OPTIONS", some dGoodW⟩).1.body ≠ RespBody.raw "" := by
  decide

/-- C9 (amended): an OPTIONS request yields a 200 response whose body is the
text "ok" (not empty), carrying exactly the CORS headers, with no storage or
email call, regardless of the request body; any method other than OPTIONS
and POST yields 405 with the method-not-allowed error body and no calls. -/
theorem method_gate_c9 (ctx : Ctx) (req : Request) :
    (req.method = "OPTIONS" →
      handleRequest ctx req =
        ({ status := 200, body := RespBody.raw "ok", headers := corsHeaders }, noCalls)) ∧
    (req.method ≠ "OPTIONS" → req.method ≠ "POST" →
      handleRequest ctx req =
        (createResponse [("error", JVal.s "Method not allowed")] 405, noCalls)) := by
  constructor
  · intro h
    simp [handleRequest, h]
  · intro h1 h2
    simp [handleRequest, h1, h2]

/-- Witness for C9 (amended): an OPTIONS request with a body, and a GET. -/
theorem method_gate_c9_witness :
    handleRequest ctxW ⟨"OPTIONS", some dGoodW⟩ =
      ({ status := 200, body := RespBody.raw "ok", headers := corsHeaders }, noCalls) ∧
    handleRequest ctxW ⟨"GET", none⟩ =
      (createResponse [("error", JVal.s "Method not allowed")] 405, noCalls) :=
  ⟨(method_gate_c9 ctxW ⟨"OPTIONS", some dGoodW⟩).1 rfl,
   (method_gate_c9 ctxW ⟨"GET", none⟩).2 (by decide) (by decide)⟩

end HandleReservation
